import Mathlib

/-!
Verification development for the operation-scheduling and material-gating core
of a manufacturing backend (production orders, routings, purchasing).

The embedding models the relevant service-layer functions over explicit lists
standing for the relational tables.  Timestamps are modelled as integers,
numeric (Decimal) quantities as rationals, and nullable columns as Option.
Python truthiness on optional integers (where both None and 0 are falsy) is
modelled explicitly wherever the source uses a bare `if x:` test.
-/

namespace FilaOps

attribute [local semireducible] Rat.add Rat.sub Rat.mul Rat.inv

/-- Instance operation of a production order
(`ProductionOrderOperation` in app/models, table from migration 033). -/
structure PoOperation where
  id : Int
  production_order_id : Int
  routing_operation_id : Option Int := none
  sequence : Int := 0
  operation_code : String := ""
  operation_name : String := ""
  work_center_id : Option Int := none
  resource_id : Option Int := none
  scheduled_start : Option Int := none
  scheduled_end : Option Int := none
  status : String := "pending"
  planned_setup_minutes : ℚ := 0
  planned_run_minutes : ℚ := 0
  quantity_completed : Option ℚ := none
  quantity_scrapped : Option ℚ := none
  deriving DecidableEq

/-- `TERMINAL_STATUSES` from app/services/resource_scheduling.py:
terminal statuses never block scheduling. -/
def terminalStatuses : List String := ["complete", "skipped", "cancelled"]

/-- The overlap test used by `find_conflicts`
(app/services/resource_scheduling.py lines 80-81): the proposed interval
[s1, e1) and a booking [s2, e2) conflict iff s1 < e2 and s2 < e1. -/
def overlaps (s1 e1 s2 e2 : Int) : Bool :=
  decide (s2 < e1) && decide (e2 > s1)

/-- The row filter of `find_conflicts` (app/services/resource_scheduling.py
lines 74-82): same resource, non-terminal status, both schedule bounds set,
and the overlap condition. -/
def schedulingFilter (resourceId startTime endTime : Int)
    (o : PoOperation) : Bool :=
  o.resource_id == some resourceId
    && !(terminalStatuses.contains o.status)
    && o.scheduled_start.isSome
    && o.scheduled_end.isSome
    && overlaps startTime endTime (o.scheduled_start.getD 0) (o.scheduled_end.getD 0)

/-- Embedding of `find_conflicts` (app/services/resource_scheduling.py).
The SQL filters translate to a list filter; the Python guard
`if exclude_operation_id:` is falsy for both None and 0, so the id-exclusion
filter is applied only for a nonzero excluded id. -/
def findConflicts (ops : List PoOperation) (resourceId : Int)
    (startTime endTime : Int) (excludeOperationId : Option Int := none) :
    List PoOperation :=
  let base := ops.filter (schedulingFilter resourceId startTime endTime)
  match excludeOperationId with
  | some e => if e == 0 then base else base.filter (fun o => o.id != e)
  | none => base

/-- Result of `schedule_operation`: the (success, conflicts) pair returned by
the Python function, together with the operation row as left by the call
(the source mutates the ORM object in place; here the row is returned). -/
structure ScheduleResult where
  success : Bool
  conflicts : List PoOperation
  operation : PoOperation
  deriving DecidableEq

/-- Embedding of `schedule_operation` (app/services/resource_scheduling.py).
For printers the resource id is stored negated to avoid id collision between
the resources and printers tables; conflicts are checked with the stored id,
excluding the operation being scheduled; on conflict nothing is mutated. -/
def scheduleOperation (ops : List PoOperation) (operation : PoOperation)
    (resourceId : Int) (scheduledStart scheduledEnd : Int)
    (isPrinter : Bool := false) : ScheduleResult :=
  let storedResourceId := if isPrinter then -resourceId else resourceId
  let conflicts := findConflicts ops storedResourceId scheduledStart scheduledEnd
    (some operation.id)
  if conflicts.isEmpty then
    { success := true
      conflicts := []
      operation := { operation with
        resource_id := some storedResourceId
        scheduled_start := some scheduledStart
        scheduled_end := some scheduledEnd
        status := "queued" } }
  else
    { success := false, conflicts := conflicts, operation := operation }

/-- Request body of the schedule endpoint
(`ScheduleOperationRequest` in app/schemas/resource_scheduling.py). -/
structure ScheduleOperationRequest where
  resource_id : Int
  scheduled_start : Int
  scheduled_end : Int
  is_printer : Bool := false
  deriving DecidableEq

/-- Embedding of `schedule_operation_endpoint`
(app/api/v1/endpoints/operation_status.py lines 326-380), happy path after the
NotFound validations: the endpoint calls `schedule_operation_service` passing
only resource_id, scheduled_start and scheduled_end, so the service parameter
`is_printer` takes its default value False and `request.is_printer` is unused. -/
def scheduleOperationEndpoint (ops : List PoOperation) (op : PoOperation)
    (req : ScheduleOperationRequest) : ScheduleResult :=
  scheduleOperation ops op req.resource_id req.scheduled_start req.scheduled_end

/-- Product row (app/models/product.py): only the columns the core reads. -/
structure Product where
  id : Int
  sku : String := ""
  name : String := ""
  unit : String := ""
  deriving DecidableEq

/-- Inventory row: on-hand and allocated quantity per product and location. -/
structure Inventory where
  product_id : Int
  location_id : Int := 0
  on_hand_quantity : ℚ
  allocated_quantity : ℚ
  deriving DecidableEq

/-- Legacy BOM line (app/models/bom.py, used by the fallback tier). -/
structure BOMLine where
  bom_id : Int
  component_id : Int
  quantity : ℚ
  unit : String := "EA"
  consume_stage : String := "production"
  scrap_factor : Option ℚ := none
  is_cost_only : Bool := false
  deriving DecidableEq

/-- Purchase order header, read-only from this core. -/
structure PurchaseOrder where
  id : Int
  po_number : String := ""
  status : String
  expected_date : Option Int := none
  deriving DecidableEq

/-- Purchase order line, read-only from this core. -/
structure PurchaseOrderLine where
  purchase_order_id : Int
  product_id : Int
  quantity_ordered : Option ℚ := none
  quantity_received : Option ℚ := none
  deriving DecidableEq

/-- Instance material of a production order operation
(`ProductionOrderOperationMaterial`, migration 033; note the instance table
carries no is_cost_only or is_optional column). -/
structure PoOperationMaterial where
  id : Int
  production_order_operation_id : Int
  component_id : Int
  routing_operation_material_id : Option Int := none
  quantity_required : Option ℚ := none
  unit : String := "EA"
  quantity_allocated : Option ℚ := none
  quantity_consumed : Option ℚ := none
  status : String := "pending"
  deriving DecidableEq

/-- Production order header (columns read by the core services). -/
structure ProductionOrder where
  id : Int
  product_id : Int := 0
  quantity_ordered : Option ℚ := none
  quantity_completed : Option ℚ := none
  status : String := "draft"
  bom_id : Option Int := none
  deriving DecidableEq

/-- Embedding of `get_material_available` (app/services/operation_blocking.py):
available = sum over all inventory rows of the product of
on_hand_quantity - allocated_quantity (COALESCE to 0 on the empty sum). -/
def getMaterialAvailable (inventory : List Inventory) (productId : Int) : ℚ :=
  ((inventory.filter (fun r => r.product_id == productId)).map
    (fun r => r.on_hand_quantity - r.allocated_quantity)).sum

/-- `OPERATION_CONSUME_STAGES` (app/services/operation_material_mapping.py):
static mapping from operation code to the BOM consume stages it checks. -/
def operationConsumeStages : List (String × List String) :=
  [("PRINT", ["production", "any"]),
   ("EXTRUDE", ["production", "any"]),
   ("MOLD", ["production", "any"]),
   ("CUT", ["production", "any"]),
   ("MACHINE", ["production", "any"]),
   ("ASSEMBLE", ["assembly", "production", "any"]),
   ("BUILD", ["assembly", "production", "any"]),
   ("WELD", ["assembly", "production", "any"]),
   ("CLEAN", ["any"]),
   ("SAND", ["any"]),
   ("PAINT", ["finishing", "any"]),
   ("COAT", ["finishing", "any"]),
   ("QC", ["any"]),
   ("INSPECT", ["any"]),
   ("TEST", ["any"]),
   ("PACK", ["shipping", "any"]),
   ("SHIP", ["shipping", "any"]),
   ("LABEL", ["shipping", "any"])]

/-- `DEFAULT_CONSUME_STAGES`: used when the operation code is unknown. -/
def defaultConsumeStages : List String := ["production", "any"]

/-- Python str.upper, written as a map over the character list so that it
evaluates definitionally (the codes handled here are ASCII). -/
def pyUpper (s : String) : String :=
  String.mk (s.data.map Char.toUpper)

/-- Python str.strip: whitespace removed from both ends. -/
def pyStrip (s : String) : String :=
  String.mk
    (((s.data.dropWhile Char.isWhitespace).reverse.dropWhile Char.isWhitespace).reverse)

/-- Embedding of `get_consume_stages_for_operation`
(app/services/operation_material_mapping.py): empty code falls back to the
default, otherwise the upper-cased code is looked up in the static table. -/
def getConsumeStagesForOperation (operationCode : String) : List String :=
  if operationCode.isEmpty then defaultConsumeStages
  else (operationConsumeStages.lookup (pyUpper operationCode)).getD defaultConsumeStages

/-- Embedding of `get_bom_lines_for_operation`
(app/services/operation_blocking.py): BOM lines of the given BOM whose
consume_stage is among the stages of the operation code and which are not
cost-only. -/
def getBomLinesForOperation (bomLines : List BOMLine) (bomId : Int)
    (operationCode : String) : List BOMLine :=
  let consumeStages := getConsumeStagesForOperation operationCode
  bomLines.filter (fun l =>
    l.bom_id == bomId && consumeStages.contains l.consume_stage && !l.is_cost_only)

/-- Embedding of `get_pending_purchase_orders`
(app/services/operation_blocking.py): join of purchase orders in an active
status with their lines for the product, keeping pairs whose remaining
quantity (ordered - received) is strictly positive. -/
def getPendingPurchaseOrders (purchaseOrders : List PurchaseOrder)
    (purchaseOrderLines : List PurchaseOrderLine) (productId : Int) :
    List (PurchaseOrder × ℚ) :=
  let activeStatuses : List String := ["draft", "ordered", "shipped"]
  let results := purchaseOrders.flatMap (fun po =>
    (purchaseOrderLines.filter (fun pol =>
      pol.purchase_order_id == po.id
        && pol.product_id == productId
        && activeStatuses.contains po.status)).map (fun pol => (po, pol)))
  results.filterMap (fun r =>
    let remaining := (r.2.quantity_ordered.getD 0) - (r.2.quantity_received.getD 0)
    if remaining > 0 then some (r.1, remaining) else none)

/-- The incoming-supply hint attached to a material issue: the first pending
purchase order for the component, with its remaining quantity. -/
structure IncomingSupply where
  purchase_order_id : Int
  purchase_order_code : String
  quantity : ℚ
  expected_date : Option Int
  deriving DecidableEq

/-- One material check row of the blocking result.  The routing tier fills
quantity_allocated, po_operation_material_id and material row status; the BOM
tier fills consume_stage; unused fields stay none, mirroring the two dict
shapes in the source. -/
structure MaterialIssue where
  product_id : Int
  product_sku : String := ""
  product_name : String := ""
  quantity_required : ℚ
  quantity_allocated : Option ℚ := none
  quantity_available : ℚ
  quantity_short : ℚ
  unit : String
  po_operation_material_id : Option Int := none
  material_status : Option String := none
  consume_stage : Option String := none
  incoming_supply : Option IncomingSupply := none
  deriving DecidableEq

/-- The dict returned by `check_operation_blocking`. -/
structure BlockingResult where
  operation_id : Int
  operation_code : String
  operation_name : String
  can_start : Bool
  blocking_issues : List MaterialIssue
  material_issues : List MaterialIssue
  material_source : Option String
  deriving DecidableEq

/-- The tables `check_operation_blocking` reads besides the production order
and the operation itself. -/
structure BlockingDb where
  products : List Product
  inventory : List Inventory
  bomLines : List BOMLine
  purchaseOrders : List PurchaseOrder
  purchaseOrderLines : List PurchaseOrderLine
  opMaterials : List PoOperationMaterial
  deriving DecidableEq

/-- The incoming-supply hint built at lines 193-203 and 262-272 of
app/services/operation_blocking.py: head of the pending purchase orders. -/
def incomingSupplyFor (db : BlockingDb) (productId : Int) : Option IncomingSupply :=
  (getPendingPurchaseOrders db.purchaseOrders db.purchaseOrderLines productId).head?.map
    (fun r =>
      { purchase_order_id := r.1.id
        purchase_order_code := r.1.po_number
        quantity := r.2
        expected_date := r.1.expected_date })

/-- The material-issue row the routing tier builds for one active instance
material (app/services/operation_blocking.py lines 177-224); none when the
component product does not exist (the loop does `continue`). -/
def routingIssueFor (db : BlockingDb) (mat : PoOperationMaterial) :
    Option MaterialIssue :=
  (db.products.find? (fun p => p.id == mat.component_id)).map (fun component =>
    let qtyRequired := mat.quantity_required.getD 0
    let qtyAllocated := mat.quantity_allocated.getD 0
    let qtyAvailable := getMaterialAvailable db.inventory component.id
    let qtyNeeded := qtyRequired - qtyAllocated
    let qtyShort := max 0 (qtyNeeded - qtyAvailable)
    { product_id := component.id
      product_sku := component.sku
      product_name := component.name
      quantity_required := qtyRequired
      quantity_allocated := some qtyAllocated
      quantity_available := max 0 qtyAvailable
      quantity_short := qtyShort
      unit := mat.unit
      po_operation_material_id := some mat.id
      material_status := some mat.status
      incoming_supply := incomingSupplyFor db component.id })

/-- The material-issue row the BOM fallback tier builds for one BOM line
(app/services/operation_blocking.py lines 249-291); none when the component
product does not exist. -/
def bomIssueFor (db : BlockingDb) (qtyToProduce : ℚ) (line : BOMLine) :
    Option MaterialIssue :=
  (db.products.find? (fun p => p.id == line.component_id)).map (fun component =>
    let scrapMultiplier := 1 + (line.scrap_factor.getD 0) / 100
    let qtyRequired := line.quantity * qtyToProduce * scrapMultiplier
    let qtyAvailable := getMaterialAvailable db.inventory component.id
    let qtyShort := max 0 (qtyRequired - qtyAvailable)
    { product_id := component.id
      product_sku := component.sku
      product_name := component.name
      quantity_required := qtyRequired
      quantity_available := max 0 qtyAvailable
      quantity_short := qtyShort
      unit := line.unit
      consume_stage := some line.consume_stage
      incoming_supply := incomingSupplyFor db component.id })

/-- Embedding of `check_operation_blocking` (app/services/operation_blocking.py
lines 121-293), after `get_operation_with_validation` has succeeded (po and op
exist and op belongs to po).  Tier 1 uses the operation instance materials
whose status is not consumed; only when there are none does the legacy BOM
tier run, and `if not po.bom_id:` is falsy for both a missing and a zero
bom_id. -/
def checkOperationBlocking (db : BlockingDb) (po : ProductionOrder)
    (op : PoOperation) : BlockingResult :=
  let base : BlockingResult :=
    { operation_id := op.id
      operation_code := op.operation_code
      operation_name := op.operation_name
      can_start := true
      blocking_issues := []
      material_issues := []
      material_source := none }
  let poOpMaterials := db.opMaterials.filter
    (fun m => m.production_order_operation_id == op.id)
  let activeMaterials := poOpMaterials.filter (fun m => m.status != "consumed")
  if activeMaterials.isEmpty then
    if (po.bom_id.getD 0) == 0 then base
    else
      let bomLines := getBomLinesForOperation db.bomLines (po.bom_id.getD 0)
        op.operation_code
      if bomLines.isEmpty then base
      else
        let withSource := { base with material_source := some "bom" }
        let qtyToProduce := (po.quantity_ordered.getD 0) - (po.quantity_completed.getD 0)
        if qtyToProduce ≤ 0 then withSource
        else
          let issues := bomLines.filterMap (bomIssueFor db qtyToProduce)
          { withSource with
            material_issues := issues
            blocking_issues := issues.filter (fun i => decide (i.quantity_short > 0))
            can_start := !(issues.any (fun i => decide (i.quantity_short > 0))) }
  else
    let issues := activeMaterials.filterMap (routingIssueFor db)
    { base with
      material_source := some "routing"
      material_issues := issues
      blocking_issues := issues.filter (fun i => decide (i.quantity_short > 0))
      can_start := !(issues.any (fun i => decide (i.quantity_short > 0))) }

/-- Embedding of `can_operation_start`: the thin projection of the full
blocking check onto (can_start, blocking_issues). -/
def canOperationStart (db : BlockingDb) (po : ProductionOrder)
    (op : PoOperation) : Bool × List MaterialIssue :=
  let fullResult := checkOperationBlocking db po op
  (fullResult.can_start, fullResult.blocking_issues)

/-- Routing header (app/models/manufacturing.py). -/
structure Routing where
  id : Int
  product_id : Int
  is_active : Bool := true
  deriving DecidableEq

/-- Routing operation template (app/models/manufacturing.py). -/
structure RoutingOperation where
  id : Int
  routing_id : Int
  sequence : Int
  operation_code : String := ""
  operation_name : String := ""
  work_center_id : Option Int := none
  setup_time_minutes : Option ℚ := none
  run_time_minutes : Option ℚ := none
  deriving DecidableEq

/-- Routing operation material template (app/models/manufacturing.py). -/
structure RoutingOperationMaterial where
  id : Int
  routing_operation_id : Int
  component_id : Int
  quantity : ℚ
  quantity_per : String := "unit"
  unit : String := "EA"
  scrap_factor : Option ℚ := none
  is_cost_only : Bool := false
  is_optional : Bool := false
  deriving DecidableEq

/-- Python `x or d` on an optional numeric column: None and 0 both give d. -/
def pyOrQ (x : Option ℚ) (d : ℚ) : ℚ :=
  match x with
  | none => d
  | some v => if v == 0 then d else v

/-- Python `s or d` on a string column: the empty string gives d. -/
def pyOrStr (s d : String) : String :=
  if s.isEmpty then d else s

/-- Embedding of `RoutingOperationMaterial.calculate_required_quantity`
(app/models/manufacturing.py lines 305-323): quantity scaled by the order
quantity when quantity_per is unit, then by the scrap allowance. -/
def calculateRequiredQuantity (m : RoutingOperationMaterial)
    (orderQuantity : ℚ) : ℚ :=
  let baseQty := m.quantity
  let scrap := (m.scrap_factor.getD 0) / 100
  let grossQty := if m.quantity_per == "unit" then baseQty * orderQuantity else baseQty
  grossQty * (1 + scrap)

/-- Embedding of `generate_operation_materials`
(app/services/operation_generation.py lines 113-189).  Every template material
of the routing operation is instantiated, with no filter on is_cost_only or
is_optional.  The guard `if not po_operation.routing_operation_id:` is falsy
for both None and 0.  The external `convert_quantity_safe` collaborator
(app/services/uom_service.py, outside this core) is a parameter: some q means
(q, True), none means conversion failed and the routing unit is kept.  The
surrogate ids the store would assign to the created rows are fixed to 0; no
claim reads them. -/
def generateOperationMaterials (routingMats : List RoutingOperationMaterial)
    (products : List Product) (convert : ℚ → String → String → Option ℚ)
    (poOperation : PoOperation) (orderQuantity : ℚ) :
    List PoOperationMaterial :=
  let rid := poOperation.routing_operation_id.getD 0
  if rid == 0 then []
  else
    (routingMats.filter (fun m => m.routing_operation_id == rid)).map (fun rm =>
      let qtyRequired := calculateRequiredQuantity rm orderQuantity
      let component := products.find? (fun p => p.id == rm.component_id)
      let matUnit := pyStrip (pyUpper (pyOrStr rm.unit "EA"))
      let componentUnit :=
        pyStrip (pyUpper (pyOrStr (match component with | some c => c.unit | none => "") "EA"))
      let converted :=
        if matUnit != componentUnit then
          match convert qtyRequired matUnit componentUnit with
          | some convertedQty => (convertedQty, componentUnit)
          | none => (qtyRequired, matUnit)
        else (qtyRequired, matUnit)
      { id := 0
        production_order_operation_id := poOperation.id
        component_id := rm.component_id
        routing_operation_material_id := some rm.id
        quantity_required := some converted.1
        unit := converted.2
        quantity_allocated := some 0
        quantity_consumed := some 0
        status := "pending" })

/-- Embedding of `get_active_routing` (app/services/operation_generation.py):
first routing of the product flagged active. -/
def getActiveRouting (routings : List Routing) (productId : Int) :
    Option Routing :=
  routings.find? (fun r => r.product_id == productId && r.is_active)

/-- Stable insertion step for ordering routing operations by sequence. -/
def insertBySequence (x : RoutingOperation) :
    List RoutingOperation → List RoutingOperation
  | [] => [x]
  | y :: ys =>
    if x.sequence ≤ y.sequence then x :: y :: ys else y :: insertBySequence x ys

/-- Stable insertion sort by sequence, modelling the SQL ORDER BY sequence. -/
def sortBySequence : List RoutingOperation → List RoutingOperation
  | [] => []
  | x :: xs => insertBySequence x (sortBySequence xs)

/-- Embedding of `get_routing_operations`: operations of the routing ordered
by sequence. -/
def getRoutingOperations (routingOps : List RoutingOperation)
    (routingId : Int) : List RoutingOperation :=
  sortBySequence (routingOps.filter (fun o => o.routing_id == routingId))

/-- Embedding of `generate_operations_from_routing`
(app/services/operation_generation.py lines 51-110): one instance operation
per routing operation in sequence order, then the instance materials of each.
The store assigns fresh serial ids to the created operations; this is
modelled by numbering them opIdBase, opIdBase+1, ... -/
def generateOperationsFromRouting (routingOps : List RoutingOperation)
    (routingMats : List RoutingOperationMaterial) (products : List Product)
    (convert : ℚ → String → String → Option ℚ) (po : ProductionOrder)
    (routing : Routing) (opIdBase : Int) :
    List PoOperation × List PoOperationMaterial :=
  let rops := getRoutingOperations routingOps routing.id
  let createdOps := rops.enum.map (fun e =>
    let runTime := e.2.run_time_minutes.getD 0
    let quantity := pyOrQ po.quantity_ordered 1
    let plannedRun := runTime * quantity
    { id := opIdBase + (e.1 : Int)
      production_order_id := po.id
      routing_operation_id := some e.2.id
      sequence := e.2.sequence
      operation_code := e.2.operation_code
      operation_name := e.2.operation_name
      work_center_id := e.2.work_center_id
      planned_setup_minutes := e.2.setup_time_minutes.getD 0
      planned_run_minutes := plannedRun
      status := "pending" : PoOperation })
  let createdMats := createdOps.flatMap (fun op =>
    generateOperationMaterials routingMats products convert op
      (pyOrQ po.quantity_ordered 1))
  (createdOps, createdMats)

/-- The store state the generation service mutates: the instance operations
table and the instance materials table. -/
structure GenState where
  ops : List PoOperation
  mats : List PoOperationMaterial
  deriving DecidableEq

/-- Embedding of `generate_operations_manual`
(app/services/operation_generation.py lines 233-271).  With existing
operations and no force it raises before any mutation (the state comes back
unchanged together with the error).  With force it deletes the existing
operations of the order - the store cascades the delete to their materials
(migration 033, ondelete CASCADE) - and regenerates from the active routing;
with no active routing nothing is created. -/
def generateOperationsManual (state : GenState) (routings : List Routing)
    (routingOps : List RoutingOperation)
    (routingMats : List RoutingOperationMaterial) (products : List Product)
    (convert : ℚ → String → String → Option ℚ) (po : ProductionOrder)
    (force : Bool) (opIdBase : Int) :
    GenState × Except String (List PoOperation) :=
  let existingOps := state.ops.filter (fun o => o.production_order_id == po.id)
  if !existingOps.isEmpty && !force then
    (state, Except.error "Operations already exist. Use force=True to regenerate.")
  else
    let afterDelete :=
      if !existingOps.isEmpty && force then
        { ops := state.ops.filter (fun o => o.production_order_id != po.id)
          mats := state.mats.filter (fun m =>
            !(existingOps.any (fun o => o.id == m.production_order_operation_id))) :
          GenState }
      else state
    match getActiveRouting routings po.product_id with
    | none => (afterDelete, Except.ok [])
    | some routing =>
      let created := generateOperationsFromRouting routingOps routingMats products
        convert po routing opIdBase
      ({ ops := afterDelete.ops ++ created.1, mats := afterDelete.mats ++ created.2 },
        Except.ok created.1)

/-- Failure taxonomy of the complete transition. -/
inductive OperationError where
  | notRunning
  | exceedsMaximum
  deriving DecidableEq

/-- Modelled from the spec: the previous operation in sequence order used by
the quantity check of the complete transition - the highest-sequence operation
of the same production order with a sequence strictly below this one; the
operation is first in sequence exactly when no such operation exists. -/
def previousOperation (ops : List PoOperation) (po : ProductionOrder)
    (op : PoOperation) : Option PoOperation :=
  let preceding := ops.filter (fun o =>
    o.production_order_id == po.id && decide (o.sequence < op.sequence))
  preceding.foldl (fun acc o =>
    match acc with
    | none => some o
    | some b => if decide (b.sequence < o.sequence) then some o else some b) none

/-- The maximum completable quantity of the complete transition: the
production order quantity for the first operation in sequence, else the
previous operation's quantity_completed (good units only - the previous
operation's scrap never enters this bound). -/
def maxCompletableQty (ops : List PoOperation) (po : ProductionOrder)
    (op : PoOperation) : ℚ :=
  match previousOperation ops po op with
  | none => po.quantity_ordered.getD 0
  | some prev => prev.quantity_completed.getD 0

/-- Modelled from the spec: the service function `complete_operation` of
app/services/operation_status.py is absent from the provided sources (only its
endpoint caller and its tests are present).  Following the spec: the operation
must be running, else NotRunning; with max_qty the order quantity for the
first operation in sequence and otherwise the previous operation's completed
quantity, the transition fails ExceedsMaximum iff
quantity_completed + quantity_scrapped > max_qty, and otherwise completes the
operation storing the quantities. -/
def completeOperation (ops : List PoOperation) (po : ProductionOrder)
    (op : PoOperation) (quantityCompleted quantityScrapped : ℚ) :
    Except OperationError PoOperation :=
  if op.status != "running" then Except.error OperationError.notRunning
  else
    let maxQty := maxCompletableQty ops po op
    if quantityCompleted + quantityScrapped > maxQty then
      Except.error OperationError.exceedsMaximum
    else
      Except.ok { op with
        status := "complete"
        quantity_completed := some quantityCompleted
        quantity_scrapped := some quantityScrapped }

/-!  Theorems  -/

/-- The scheduling filter as a proposition, by cases on the option columns. -/
theorem schedulingFilter_iff (resourceId startTime endTime : Int)
    (o : PoOperation) :
    schedulingFilter resourceId startTime endTime o = true ↔
      o.resource_id = some resourceId ∧ o.status ∉ terminalStatuses ∧
        ∃ s2 e2, o.scheduled_start = some s2 ∧ o.scheduled_end = some e2 ∧
          startTime < e2 ∧ s2 < endTime := by
  cases hss : o.scheduled_start with
  | none => simp [schedulingFilter, overlaps, hss]
  | some s2 =>
    cases hse : o.scheduled_end with
    | none => simp [schedulingFilter, overlaps, hss, hse]
    | some e2 =>
      simp [schedulingFilter, overlaps, hss, hse, and_assoc]
      tauto

/-- Equation for `findConflicts` with no exclusion. -/
theorem findConflicts_none (ops : List PoOperation)
    (resourceId startTime endTime : Int) :
    findConflicts ops resourceId startTime endTime none
      = ops.filter (schedulingFilter resourceId startTime endTime) := rfl

/-- Equation for `findConflicts` with a nonzero excluded id. -/
theorem findConflicts_some (ops : List PoOperation)
    (resourceId startTime endTime v : Int) (hv : v ≠ 0) :
    findConflicts ops resourceId startTime endTime (some v)
      = (ops.filter (schedulingFilter resourceId startTime endTime)).filter
          (fun o => o.id != v) := by
  have hb : (v == 0) = false := beq_eq_false_iff_ne.mpr hv
  simp [findConflicts, hb]

/-- C2: `find_conflicts` returns exactly the operations on the resource whose
half-open interval overlaps the proposed one (s1 < e2 and s2 < e1), restricted
to non-terminal operations with both scheduled bounds set, minus the excluded
operation; the overlap relation is symmetric, and touching intervals never
conflict. -/
theorem find_conflicts_exact (ops : List PoOperation)
    (resourceId startTime endTime : Int) (excludeOperationId : Option Int)
    (hx : ∀ x ∈ excludeOperationId, x ≠ 0) :
    (∀ o : PoOperation,
      o ∈ findConflicts ops resourceId startTime endTime excludeOperationId ↔
        o ∈ ops ∧ o.resource_id = some resourceId ∧
          o.status ∉ terminalStatuses ∧
          (∃ s2 e2, o.scheduled_start = some s2 ∧ o.scheduled_end = some e2 ∧
            startTime < e2 ∧ s2 < endTime) ∧
          ∀ x ∈ excludeOperationId, o.id ≠ x)
    ∧ (∀ s1 e1 s2 e2 : Int, overlaps s1 e1 s2 e2 = overlaps s2 e2 s1 e1)
    ∧ (∀ s1 e1 e2 : Int, overlaps s1 e1 e1 e2 = false)
    ∧ (∀ s1 e1 s2 : Int, overlaps s1 e1 s2 s1 = false) := by
  refine ⟨?_, ?_, ?_, ?_⟩
  · intro o
    cases excludeOperationId with
    | none =>
      rw [findConflicts_none, List.mem_filter, schedulingFilter_iff]
      simp only [Option.mem_def, reduceCtorEq, false_implies, implies_true, and_true]
    | some v =>
      have hv : v ≠ 0 := hx v rfl
      rw [findConflicts_some _ _ _ _ _ hv, List.mem_filter, List.mem_filter,
        schedulingFilter_iff]
      simp only [Option.mem_def, Option.some.injEq, bne_iff_ne, ne_eq, forall_eq']
      tauto
  · intro s1 e1 s2 e2
    by_cases h1 : s2 < e1 <;> by_cases h2 : s1 < e2 <;>
      simp [overlaps, h1, h2]
  · intro s1 e1 e2
    simp [overlaps]
  · intro s1 e1 s2
    simp [overlaps]

/-- Witness for C2 at a concrete booking list. -/
theorem find_conflicts_exact_witness :
    (⟨1, 1, none, 0, "", "", none, some 3, some 10, some 20, "queued", 0, 0,
        none, none⟩ : PoOperation) ∈
      findConflicts [⟨1, 1, none, 0, "", "", none, some 3, some 10, some 20,
        "queued", 0, 0, none, none⟩] 3 15 25 (some 2) := by
  exact ((find_conflicts_exact _ 3 15 25 (some 2)
    (by intro x hxx; simp [Option.mem_def] at hxx; omega)).1 _).mpr
    ⟨by simp, rfl, by decide, ⟨10, 20, rfl, rfl, by decide, by decide⟩,
      by intro x hxx; simp only [Option.mem_def, Option.some_inj] at hxx
         subst hxx; decide⟩

/-- C4: `schedule_operation` is an atomic accept/reject.  With no conflict
(checked with the stored resource id, excluding the operation itself) it sets
resource_id, scheduled_start, scheduled_end and writes status queued whatever
the prior status was, returning no conflicts; with any conflict it returns the
full conflicting set and leaves the operation untouched. -/
theorem schedule_operation_atomic (ops : List PoOperation) (op : PoOperation)
    (resourceId scheduledStart scheduledEnd : Int) (isPrinter : Bool) :
    (findConflicts ops (if isPrinter then -resourceId else resourceId)
        scheduledStart scheduledEnd (some op.id) = [] →
      scheduleOperation ops op resourceId scheduledStart scheduledEnd isPrinter
        = { success := true
            conflicts := []
            operation := { op with
              resource_id := some (if isPrinter then -resourceId else resourceId)
              scheduled_start := some scheduledStart
              scheduled_end := some scheduledEnd
              status := "queued" } })
    ∧ (findConflicts ops (if isPrinter then -resourceId else resourceId)
        scheduledStart scheduledEnd (some op.id) ≠ [] →
      scheduleOperation ops op resourceId scheduledStart scheduledEnd isPrinter
        = { success := false
            conflicts := findConflicts ops
              (if isPrinter then -resourceId else resourceId)
              scheduledStart scheduledEnd (some op.id)
            operation := op }) := by
  constructor
  · intro h
    simp [scheduleOperation, h]
  · intro h
    have hne : (findConflicts ops (if isPrinter then -resourceId else resourceId)
        scheduledStart scheduledEnd (some op.id)).isEmpty = false := by
      cases hc : findConflicts ops (if isPrinter then -resourceId else resourceId)
          scheduledStart scheduledEnd (some op.id) with
      | nil => exact absurd hc h
      | cons a l => rfl
    simp [scheduleOperation, hne]

/-- Witness for C4: a clean schedule on an idle resource succeeds and writes
queued; a schedule over an existing booking is rejected with the booking as
the sole conflict and the operation row untouched. -/
theorem schedule_operation_atomic_witness :
    (scheduleOperation []
        (⟨1, 1, none, 0, "", "", none, none, none, none, "pending", 0, 0,
          none, none⟩ : PoOperation) 5 10 20 false).operation.status = "queued"
    ∧ (scheduleOperation
        [⟨2, 1, none, 0, "", "", none, some 5, some 10, some 20, "queued", 0,
          0, none, none⟩]
        (⟨1, 1, none, 0, "", "", none, none, none, none, "pending", 0, 0,
          none, none⟩ : PoOperation) 5 15 25 false).operation
      = ⟨1, 1, none, 0, "", "", none, none, none, none, "pending", 0, 0,
          none, none⟩ := by
  constructor
  · rw [(schedule_operation_atomic [] _ 5 10 20 false).1 (by decide)]
  · rw [(schedule_operation_atomic _ _ 5 15 25 false).2 (by decide)]

/-- C7: the service-level `schedule_operation` stores the negated resource id
when is_printer is true, but `schedule_operation_endpoint` never forwards
`request.is_printer` to the service, so scheduling through the interface with
is_printer true still stores the resource id unchanged. -/
theorem schedule_is_printer_encoding :
    (scheduleOperation []
        (⟨1, 1, none, 0, "", "", none, none, none, none, "pending", 0, 0,
          none, none⟩ : PoOperation) 5 10 20 true).operation.resource_id
      = some (-5)
    ∧ (scheduleOperation []
        (⟨1, 1, none, 0, "", "", none, none, none, none, "pending", 0, 0,
          none, none⟩ : PoOperation) 5 10 20 false).operation.resource_id
      = some 5
    ∧ (scheduleOperationEndpoint []
        (⟨1, 1, none, 0, "", "", none, none, none, none, "pending", 0, 0,
          none, none⟩ : PoOperation)
        { resource_id := 5, scheduled_start := 10, scheduled_end := 20,
          is_printer := true }).operation.resource_id
      = some 5 := by
  exact ⟨rfl, rfl, rfl⟩

/-- C3: completing a running operation checks
quantity_completed + quantity_scrapped against the maximum completable
quantity - the order quantity for the first operation in sequence, else the
previous operation's completed quantity (its scrap does not flow forward) -
failing ExceedsMaximum exactly when the sum is above the bound. -/
theorem complete_operation_quantity_check (ops : List PoOperation)
    (po : ProductionOrder) (op : PoOperation) (qc qs : ℚ)
    (hrun : op.status = "running") :
    (completeOperation ops po op qc qs
        = Except.error OperationError.exceedsMaximum
      ↔ qc + qs > maxCompletableQty ops po op)
    ∧ (qc + qs ≤ maxCompletableQty ops po op →
      completeOperation ops po op qc qs
        = Except.ok { op with
            status := "complete"
            quantity_completed := some qc
            quantity_scrapped := some qs })
    ∧ (previousOperation ops po op = none →
      maxCompletableQty ops po op = po.quantity_ordered.getD 0)
    ∧ (∀ prev, previousOperation ops po op = some prev →
      maxCompletableQty ops po op = prev.quantity_completed.getD 0) := by
  have hs : (op.status != "running") = false := by simp [hrun]
  refine ⟨⟨?_, ?_⟩, ?_, ?_, ?_⟩
  · intro h
    by_cases hq : qc + qs > maxCompletableQty ops po op
    · exact hq
    · simp [completeOperation, hs, hq] at h
  · intro hq
    simp [completeOperation, hs, hq]
  · intro hq
    have hq2 : ¬ (qc + qs > maxCompletableQty ops po op) := not_lt.mpr hq
    simp [completeOperation, hs, hq2]
  · intro hprev
    simp [maxCompletableQty, hprev]
  · intro prev hprev
    simp [maxCompletableQty, hprev]

/-- Witness for C3: order of 10, first operation completed 8 good and 2
scrapped; completing the second with 9 good fails, with 7 good and 1 scrap it
passes the quantity check. -/
theorem complete_operation_quantity_check_witness :
    completeOperation
        [⟨11, 1, none, 10, "PRINT", "", none, none, none, none, "complete",
          0, 0, some 8, some 2⟩,
         ⟨12, 1, none, 20, "CLEAN", "", none, none, none, none, "running",
          0, 0, none, none⟩]
        (⟨1, 1, some 10, none, "in_progress", none⟩ : ProductionOrder)
        (⟨12, 1, none, 20, "CLEAN", "", none, none, none, none, "running",
          0, 0, none, none⟩ : PoOperation) 9 0
      = Except.error OperationError.exceedsMaximum
    ∧ completeOperation
        [⟨11, 1, none, 10, "PRINT", "", none, none, none, none, "complete",
          0, 0, some 8, some 2⟩,
         ⟨12, 1, none, 20, "CLEAN", "", none, none, none, none, "running",
          0, 0, none, none⟩]
        (⟨1, 1, some 10, none, "in_progress", none⟩ : ProductionOrder)
        (⟨12, 1, none, 20, "CLEAN", "", none, none, none, none, "running",
          0, 0, none, none⟩ : PoOperation) 7 1
      = Except.ok ⟨12, 1, none, 20, "CLEAN", "", none, none, none, none,
          "complete", 0, 0, some 7, some 1⟩ := by
  constructor
  · exact (complete_operation_quantity_check _ _ _ 9 0 rfl).1.mpr (by decide)
  · exact ((complete_operation_quantity_check _ _ _ 7 1 rfl).2.1 (by decide))

/-- C1: if the operation has any instance material row with status other than
consumed, the blocking check answers from the routing tier: material_source is
routing and the result is the same for every BOM-line table and every bom_id,
for both check_operation_blocking and can_operation_start; with zero such rows
and no bom_id the result is can_start true with no source and no issues. -/
theorem check_blocking_tier_precedence (db : BlockingDb) (B : List BOMLine)
    (b : Option Int) (po : ProductionOrder) (op : PoOperation) :
    ((db.opMaterials.filter
        (fun m => m.production_order_operation_id == op.id)).filter
        (fun m => m.status != "consumed") ≠ [] →
      (checkOperationBlocking db po op).material_source = some "routing"
        ∧ checkOperationBlocking { db with bomLines := B } { po with bom_id := b } op
            = checkOperationBlocking db po op
        ∧ canOperationStart { db with bomLines := B } { po with bom_id := b } op
            = canOperationStart db po op)
    ∧ ((db.opMaterials.filter
        (fun m => m.production_order_operation_id == op.id)).filter
        (fun m => m.status != "consumed") = [] → po.bom_id = none →
      (checkOperationBlocking db po op).can_start = true
        ∧ (checkOperationBlocking db po op).material_source = none
        ∧ (checkOperationBlocking db po op).blocking_issues = []) := by
  constructor
  · intro h
    have hae : ((db.opMaterials.filter
        (fun m => m.production_order_operation_id == op.id)).filter
        (fun m => m.status != "consumed")).isEmpty = false := by
      cases hc : (db.opMaterials.filter
          (fun m => m.production_order_operation_id == op.id)).filter
          (fun m => m.status != "consumed") with
      | nil => exact absurd hc h
      | cons a l => rfl
    refine ⟨?_, ?_, ?_⟩
    · simp only [checkOperationBlocking, hae, Bool.false_eq_true, reduceIte]
    · simp only [checkOperationBlocking, hae, Bool.false_eq_true, reduceIte]
      rfl
    · simp only [canOperationStart, checkOperationBlocking, hae,
        Bool.false_eq_true, reduceIte]
      rfl
  · intro h hb
    simp only [checkOperationBlocking, h, hb, List.isEmpty_nil, Option.getD_none,
      beq_self_eq_true, reduceIte]
    exact ⟨trivial, trivial, trivial⟩

/-- Witness for C1: an operation with one pending instance material answers
from the routing tier even with a BOM line present; an operation with no
instance materials on an order without bom_id can start. -/
theorem check_blocking_tier_precedence_witness :
    (checkOperationBlocking
        ⟨[⟨7, "SKU", "N", "EA"⟩], [], [⟨9, 7, 1, "EA", "shipping", none, false⟩],
          [], [], [⟨21, 5, 7, none, some 4, "EA", some 0, some 0, "pending"⟩]⟩
        (⟨1, 1, some 10, none, "released", some 9⟩ : ProductionOrder)
        (⟨5, 1, none, 10, "PRINT", "", none, none, none, none, "pending", 0, 0,
          none, none⟩ : PoOperation)).material_source = some "routing"
    ∧ (checkOperationBlocking
        (⟨[], [], [], [], [], []⟩ : BlockingDb)
        (⟨1, 1, some 10, none, "released", none⟩ : ProductionOrder)
        (⟨5, 1, none, 10, "PRINT", "", none, none, none, none, "pending", 0, 0,
          none, none⟩ : PoOperation)).can_start = true := by
  constructor
  · exact ((check_blocking_tier_precedence _ [] none _ _).1 (by decide)).1
  · exact ((check_blocking_tier_precedence _ [] none _ _).2 (by decide) rfl).1

/-- A BOM-tier issue row carries the consume stage of its BOM line. -/
theorem bomIssueFor_consume_stage (db : BlockingDb) (q : ℚ) (line : BOMLine)
    (issue : MaterialIssue) (h : bomIssueFor db q line = some issue) :
    issue.consume_stage = some line.consume_stage := by
  rcases Option.map_eq_some'.mp h with ⟨c, hc, heq⟩
  subst heq
  rfl

/-- A routing-tier issue row carries no consume stage. -/
theorem routingIssueFor_consume_stage (db : BlockingDb)
    (mat : PoOperationMaterial) (issue : MaterialIssue)
    (h : routingIssueFor db mat = some issue) : issue.consume_stage = none := by
  rcases Option.map_eq_some'.mp h with ⟨c, hc, heq⟩
  subst heq
  rfl

/-- C6: the BOM fallback tier checks only lines whose consume_stage is in the
static stage set of the operation code (PRINT gets production/any, PACK gets
shipping/any, QC gets any, unknown codes get production/any); hence a PRINT
operation is never blocked by a shipping-stage BOM line, while a PACK
operation with such a line short is blocked. -/
theorem consume_stage_isolation (db : BlockingDb) (po : ProductionOrder)
    (op : PoOperation) (bomId : Int) (line : BOMLine) (q : ℚ) :
    (getConsumeStagesForOperation "PRINT" = ["production", "any"]
      ∧ getConsumeStagesForOperation "PACK" = ["shipping", "any"]
      ∧ getConsumeStagesForOperation "QC" = ["any"]
      ∧ (∀ code : String, ¬code.isEmpty →
          operationConsumeStages.lookup (pyUpper code) = none →
          getConsumeStagesForOperation code = ["production", "any"]))
    ∧ (∀ l ∈ getBomLinesForOperation db.bomLines bomId op.operation_code,
        l.bom_id = bomId
          ∧ l.consume_stage ∈ getConsumeStagesForOperation op.operation_code
          ∧ l.is_cost_only = false)
    ∧ (op.operation_code = "PRINT" →
        ∀ issue ∈ (checkOperationBlocking db po op).blocking_issues,
          issue.consume_stage ≠ some "shipping")
    ∧ (op.operation_code = "PACK" →
        (db.opMaterials.filter
            (fun m => m.production_order_operation_id == op.id)).filter
            (fun m => m.status != "consumed") = [] →
        po.bom_id = some bomId → bomId ≠ 0 →
        line ∈ db.bomLines → line.bom_id = bomId →
        line.consume_stage = "shipping" → line.is_cost_only = false →
        q = po.quantity_ordered.getD 0 - po.quantity_completed.getD 0 →
        q > 0 →
        (db.products.find? (fun p => p.id == line.component_id)).isSome →
        line.quantity * q * (1 + (line.scrap_factor.getD 0) / 100)
            - getMaterialAvailable db.inventory line.component_id > 0 →
        (checkOperationBlocking db po op).can_start = false) := by
  refine ⟨⟨by decide, by decide, by decide, ?_⟩, ?_, ?_, ?_⟩
  · intro code hne hlk
    simp [getConsumeStagesForOperation, hne, hlk, defaultConsumeStages]
  · intro l hl
    simp only [getBomLinesForOperation, List.mem_filter, Bool.and_eq_true,
      beq_iff_eq, Bool.not_eq_true'] at hl
    rcases hl with ⟨-, ⟨⟨hb, hs⟩, hc⟩⟩
    exact ⟨hb, by simpa [List.contains_iff_exists_mem_beq] using hs, hc⟩
  · intro hcode issue hmem
    simp only [checkOperationBlocking] at hmem
    split at hmem
    · split at hmem
      · simp at hmem
      · split at hmem
        · simp at hmem
        · split at hmem
          · simp at hmem
          · simp only [List.mem_filter, List.mem_filterMap] at hmem
            rcases hmem with ⟨⟨l, hlmem, hlissue⟩, -⟩
            have hstage := bomIssueFor_consume_stage _ _ _ _ hlissue
            rw [hstage]
            have hlprops : l.consume_stage ∈
                getConsumeStagesForOperation op.operation_code := by
              simp only [getBomLinesForOperation, List.mem_filter,
                Bool.and_eq_true, beq_iff_eq, Bool.not_eq_true'] at hlmem
              rcases hlmem with ⟨-, ⟨⟨-, hs⟩, -⟩⟩
              simpa [List.contains_iff_exists_mem_beq] using hs
            rw [hcode] at hlprops
            intro hcontra
            rw [Option.some_inj] at hcontra
            rw [hcontra] at hlprops
            exact absurd hlprops (by decide)
    · simp only [List.mem_filter, List.mem_filterMap] at hmem
      rcases hmem with ⟨⟨m, hmmem, hmissue⟩, -⟩
      rw [routingIssueFor_consume_stage _ _ _ hmissue]
      exact fun hcontra => Option.noConfusion hcontra
  · intro hcode hact hbom hb0 hmemline hlb hls hlc hqdef hqpos hfound hshortpos
    obtain ⟨c, hc⟩ := Option.isSome_iff_exists.mp hfound
    have hcid : c.id = line.component_id := by
      have hp := List.find?_some hc
      simpa using hp
    have hstages : getConsumeStagesForOperation op.operation_code
        = ["shipping", "any"] := by rw [hcode]; rfl
    have hmem2 : line ∈ getBomLinesForOperation db.bomLines bomId
        op.operation_code := by
      simp [getBomLinesForOperation, hstages, List.mem_filter, hmemline, hlb,
        hls, hlc]
    have hi : bomIssueFor db q line = some
        { product_id := c.id
          product_sku := c.sku
          product_name := c.name
          quantity_required := line.quantity * q * (1 + (line.scrap_factor.getD 0) / 100)
          quantity_available := max 0 (getMaterialAvailable db.inventory c.id)
          quantity_short := max 0 (line.quantity * q * (1 + (line.scrap_factor.getD 0) / 100)
            - getMaterialAvailable db.inventory c.id)
          unit := line.unit
          consume_stage := some line.consume_stage
          incoming_supply := incomingSupplyFor db c.id } := by
      simp [bomIssueFor, hc]
    have hipos : (0:ℚ) < max 0 (line.quantity * q * (1 + (line.scrap_factor.getD 0) / 100)
        - getMaterialAvailable db.inventory c.id) := by
      rw [hcid]
      exact lt_max_of_lt_right hshortpos
    have hae : ((db.opMaterials.filter
        (fun m => m.production_order_operation_id == op.id)).filter
        (fun m => m.status != "consumed")).isEmpty = true := by
      rw [hact]; rfl
    have hb0b : (bomId == 0) = false := beq_eq_false_iff_ne.mpr hb0
    have hlne : (getBomLinesForOperation db.bomLines bomId
        op.operation_code).isEmpty = false := by
      cases hgl : getBomLinesForOperation db.bomLines bomId op.operation_code with
      | nil => rw [hgl] at hmem2; exact absurd hmem2 (List.not_mem_nil _)
      | cons a t => rfl
    have hq0 : ¬(po.quantity_ordered.getD 0 - po.quantity_completed.getD 0 ≤ 0) := by
      rw [← hqdef]; exact not_le.mpr hqpos
    simp only [checkOperationBlocking, hae, reduceIte, hbom, Option.getD_some,
      hb0b, Bool.false_eq_true, hlne]
    rw [if_neg hq0]
    rw [← hqdef]
    have hx : (List.filterMap (bomIssueFor db q)
        (getBomLinesForOperation db.bomLines bomId op.operation_code)).any
        (fun i => decide (i.quantity_short > 0)) = true :=
      List.any_eq_true.mpr
        ⟨_, List.mem_filterMap.mpr ⟨line, hmem2, hi⟩, by simpa using hipos⟩
    simp [hx]

/-- Witness for C6: a PACK operation on a BOM with one short shipping-stage
line is blocked. -/
theorem consume_stage_isolation_witness :
    (checkOperationBlocking
        ⟨[⟨7, "BOX", "Box", "EA"⟩], [], [⟨9, 7, 1, "EA", "shipping", none, false⟩],
          [], [], []⟩
        (⟨1, 1, some 5, none, "released", some 9⟩ : ProductionOrder)
        (⟨5, 1, none, 40, "PACK", "", none, none, none, none, "pending", 0, 0,
          none, none⟩ : PoOperation)).can_start = false := by
  exact (consume_stage_isolation _ _ _ 9 ⟨9, 7, 1, "EA", "shipping", none, false⟩
      5).2.2.2 rfl rfl rfl (by decide) (by decide) rfl rfl rfl (by decide)
      (by decide) (by decide) (by decide)

/-- C5: a routing-template material flagged cost-only is instantiated by
`generate_operation_materials` (which copies every template row with no
cost-only or optional filter, and the instance table has no such column) and
then surfaces in the routing tier of the blocking check, blocking the
operation - although the source comment above the tier-1 filter claims
cost-only materials are filtered out, and the BOM tier does exclude them. -/
theorem cost_only_reaches_routing_blocking :
    generateOperationMaterials [⟨31, 11, 7, 1, "unit", "EA", none, true, false⟩]
        [⟨7, "PLA", "PLA", "EA"⟩] (fun _ _ _ => none)
        (⟨5, 1, some 11, 10, "PRINT", "", none, none, none, none, "pending", 0, 0,
          none, none⟩ : PoOperation) 5
      = [⟨0, 5, 7, some 31, some 5, "EA", some 0, some 0, "pending"⟩]
    ∧ (checkOperationBlocking
        ⟨[⟨7, "PLA", "PLA", "EA"⟩], [], [], [], [],
          generateOperationMaterials [⟨31, 11, 7, 1, "unit", "EA", none, true, false⟩]
            [⟨7, "PLA", "PLA", "EA"⟩] (fun _ _ _ => none)
            (⟨5, 1, some 11, 10, "PRINT", "", none, none, none, none, "pending",
              0, 0, none, none⟩ : PoOperation) 5⟩
        (⟨1, 1, some 5, none, "released", none⟩ : ProductionOrder)
        (⟨5, 1, some 11, 10, "PRINT", "", none, none, none, none, "pending", 0, 0,
          none, none⟩ : PoOperation)).can_start = false
    ∧ (checkOperationBlocking
        ⟨[⟨7, "PLA", "PLA", "EA"⟩], [], [], [], [],
          generateOperationMaterials [⟨31, 11, 7, 1, "unit", "EA", none, true, false⟩]
            [⟨7, "PLA", "PLA", "EA"⟩] (fun _ _ _ => none)
            (⟨5, 1, some 11, 10, "PRINT", "", none, none, none, none, "pending",
              0, 0, none, none⟩ : PoOperation) 5⟩
        (⟨1, 1, some 5, none, "released", none⟩ : ProductionOrder)
        (⟨5, 1, some 11, 10, "PRINT", "", none, none, none, none, "pending", 0, 0,
          none, none⟩ : PoOperation)).blocking_issues ≠ []
    ∧ (getBomLinesForOperation [⟨9, 7, 1, "EA", "production", none, true⟩] 9
        "PRINT") = [] := by
  refine ⟨by decide, by decide, by decide, by decide⟩

/-- Counterexample to C8 as stated: one location with 10 on hand, 5 required;
raising the allocated inventory quantity from 0 to 3 leaves quantity_short at
0 - the increase is 0, not 3, because the surplus absorbs it. -/
theorem allocation_shortage_counterexample :
    ((checkOperationBlocking
        ⟨[⟨7, "PLA", "PLA", "EA"⟩], [⟨7, 1, 10, 0⟩], [], [], [],
          [⟨41, 5, 7, none, some 5, "EA", some 0, some 0, "pending"⟩]⟩
        (⟨1, 1, some 5, none, "released", none⟩ : ProductionOrder)
        (⟨5, 1, none, 10, "PRINT", "", none, none, none, none, "pending", 0, 0,
          none, none⟩ : PoOperation)).material_issues.map
        (fun i => i.quantity_short)) = [0]
    ∧ ((checkOperationBlocking
        ⟨[⟨7, "PLA", "PLA", "EA"⟩], [⟨7, 1, 10, 0 + 3⟩], [], [], [],
          [⟨41, 5, 7, none, some 5, "EA", some 0, some 0, "pending"⟩]⟩
        (⟨1, 1, some 5, none, "released", none⟩ : ProductionOrder)
        (⟨5, 1, none, 10, "PRINT", "", none, none, none, none, "pending", 0, 0,
          none, none⟩ : PoOperation)).material_issues.map
        (fun i => i.quantity_short)) = [0]
    ∧ (0 : ℚ) ≠ 0 + 3 := by
  refine ⟨by decide, by decide, by decide⟩

/-- C8 as amended: available inventory is the sum of on_hand - allocated over
the product locations; the routing-tier quantity_short is
max 0 (required - allocated - available); raising one location allocation by d
lowers availability by exactly d, and raises quantity_short by exactly d
provided the material was not in surplus (needed at least available) - with a
surplus the increase can be smaller, as the counterexample shows. -/
theorem allocation_accounting (db : BlockingDb) (pre post : List Inventory)
    (row : Inventory) (mat : PoOperationMaterial) (issue : MaterialIssue)
    (d : ℚ) :
    (getMaterialAvailable db.inventory mat.component_id
        = ((db.inventory.filter (fun r => r.product_id == mat.component_id)).map
            (fun r => r.on_hand_quantity - r.allocated_quantity)).sum)
    ∧ (routingIssueFor db mat = some issue →
        issue.quantity_short = max 0 (mat.quantity_required.getD 0
          - mat.quantity_allocated.getD 0
          - getMaterialAvailable db.inventory mat.component_id))
    ∧ (db.inventory = pre ++ row :: post → row.product_id = mat.component_id →
        getMaterialAvailable (pre ++ { row with
            allocated_quantity := row.allocated_quantity + d } :: post)
            mat.component_id
          = getMaterialAvailable db.inventory mat.component_id - d)
    ∧ (0 ≤ d →
        0 ≤ mat.quantity_required.getD 0 - mat.quantity_allocated.getD 0
          - getMaterialAvailable db.inventory mat.component_id →
        max 0 (mat.quantity_required.getD 0 - mat.quantity_allocated.getD 0
            - (getMaterialAvailable db.inventory mat.component_id - d))
          = max 0 (mat.quantity_required.getD 0 - mat.quantity_allocated.getD 0
            - getMaterialAvailable db.inventory mat.component_id) + d) := by
  refine ⟨rfl, ?_, ?_, ?_⟩
  · intro h
    rcases Option.map_eq_some'.mp h with ⟨c, hc, heq⟩
    have hcid : c.id = mat.component_id := by
      have hp := List.find?_some hc
      simpa using hp
    subst heq
    show max 0 (mat.quantity_required.getD 0 - mat.quantity_allocated.getD 0
      - getMaterialAvailable db.inventory c.id) = _
    rw [hcid]
  · intro heq hrow
    rw [heq]
    have hb : (row.product_id == mat.component_id) = true := by
      simpa using hrow
    simp only [getMaterialAvailable, List.filter_append, List.filter_cons, hb,
      if_true, reduceIte, List.map_append, List.sum_append, List.map_cons,
      List.sum_cons]
    ring
  · intro hd hns
    have h1 : mat.quantity_required.getD 0 - mat.quantity_allocated.getD 0
        - (getMaterialAvailable db.inventory mat.component_id - d)
        = (mat.quantity_required.getD 0 - mat.quantity_allocated.getD 0
          - getMaterialAvailable db.inventory mat.component_id) + d := by
      ring
    rw [h1, max_eq_right (by linarith), max_eq_right hns]

/-- Witness for C8 amended: availability drop and shortage rise by exactly the
allocation increase when not in surplus. -/
theorem allocation_accounting_witness :
    getMaterialAvailable [(⟨7, 1, 10, 0 + 3⟩ : Inventory)] 7
      = getMaterialAvailable [(⟨7, 1, 10, 0⟩ : Inventory)] 7 - 3
    ∧ max (0:ℚ) ((5:ℚ) - 0 - (getMaterialAvailable
          [(⟨7, 1, 2, 0⟩ : Inventory)] 7 - 3))
      = max (0:ℚ) ((5:ℚ) - 0 - getMaterialAvailable
          [(⟨7, 1, 2, 0⟩ : Inventory)] 7) + 3 := by
  constructor
  · exact (allocation_accounting
      ⟨[], [⟨7, 1, 10, 0⟩], [], [], [], []⟩ [] [] ⟨7, 1, 10, 0⟩
      ⟨0, 0, 7, none, some 5, "EA", some 0, none, "pending"⟩
      ⟨7, "", "", 0, none, 0, 0, "EA", none, none, none, none⟩ 3).2.2.1 rfl rfl
  · exact (allocation_accounting
      ⟨[], [⟨7, 1, 2, 0⟩], [], [], [], []⟩ [] [] ⟨7, 1, 2, 0⟩
      ⟨0, 0, 7, none, some 5, "EA", some 0, none, "pending"⟩
      ⟨7, "", "", 0, none, 0, 0, "EA", none, none, none, none⟩ 3).2.2.2
      (by decide) (by decide)

/-- The force-regeneration state: the order's previous instance operations are
removed and, via the store cascade, so are their materials. -/
def deleteForRegeneration (state : GenState) (po : ProductionOrder) : GenState :=
  { ops := state.ops.filter (fun o => o.production_order_id != po.id)
    mats := state.mats.filter (fun m =>
      !((state.ops.filter (fun o => o.production_order_id == po.id)).any
        (fun o => o.id == m.production_order_operation_id))) }

/-- With no prior operation of the order, the regeneration delete is a no-op. -/
theorem deleteForRegeneration_of_no_existing (state : GenState)
    (po : ProductionOrder)
    (hemp : state.ops.filter (fun o => o.production_order_id == po.id) = []) :
    deleteForRegeneration state po = state := by
  have h1 : state.ops.filter (fun o => o.production_order_id != po.id)
      = state.ops := by
    refine List.filter_eq_self.mpr (fun o ho => ?_)
    have hno := List.filter_eq_nil_iff.mp hemp o ho
    simp only [bne_iff_ne, ne_eq]
    simpa using hno
  have h2 : state.mats.filter (fun m =>
      !((state.ops.filter (fun o => o.production_order_id == po.id)).any
        (fun o => o.id == m.production_order_operation_id))) = state.mats := by
    refine List.filter_eq_self.mpr (fun m hm => ?_)
    rw [hemp]
    rfl
  rw [deleteForRegeneration, h1, h2]

/-- C9: with existing operations and no force, generation fails with the
already-exist error and the store is untouched; with force, the previous
operations of the order (and, by cascade, their materials) are deleted and the
full set is recreated from the active routing - nothing when no routing is
active. -/
theorem generate_operations_manual_guard (state : GenState)
    (routings : List Routing) (routingOps : List RoutingOperation)
    (routingMats : List RoutingOperationMaterial) (products : List Product)
    (convert : ℚ → String → String → Option ℚ) (po : ProductionOrder)
    (opIdBase : Int) (r : Routing) :
    (state.ops.filter (fun o => o.production_order_id == po.id) ≠ [] →
      generateOperationsManual state routings routingOps routingMats products
          convert po false opIdBase
        = (state,
           Except.error "Operations already exist. Use force=True to regenerate."))
    ∧ (getActiveRouting routings po.product_id = none →
      generateOperationsManual state routings routingOps routingMats products
          convert po true opIdBase
        = (deleteForRegeneration state po, Except.ok []))
    ∧ (getActiveRouting routings po.product_id = some r →
      generateOperationsManual state routings routingOps routingMats products
          convert po true opIdBase
        = ({ ops := (deleteForRegeneration state po).ops
              ++ (generateOperationsFromRouting routingOps routingMats products
                convert po r opIdBase).1
             mats := (deleteForRegeneration state po).mats
              ++ (generateOperationsFromRouting routingOps routingMats products
                convert po r opIdBase).2 },
           Except.ok (generateOperationsFromRouting routingOps routingMats
             products convert po r opIdBase).1)) := by
  refine ⟨?_, ?_, ?_⟩
  · intro h
    have hne : (state.ops.filter
        (fun o => o.production_order_id == po.id)).isEmpty = false := by
      cases hc : state.ops.filter (fun o => o.production_order_id == po.id) with
      | nil => exact absurd hc h
      | cons a l => rfl
    simp [generateOperationsManual, hne]
  · intro hnone
    by_cases hemp : state.ops.filter (fun o => o.production_order_id == po.id) = []
    · have hie : (state.ops.filter
          (fun o => o.production_order_id == po.id)).isEmpty = true := by
        rw [hemp]; rfl
      simp only [generateOperationsManual, hie, Bool.not_true, Bool.and_true,
        Bool.false_and, Bool.false_eq_true, reduceIte, hnone]
      rw [deleteForRegeneration_of_no_existing state po hemp]
    · have hie : (state.ops.filter
          (fun o => o.production_order_id == po.id)).isEmpty = false := by
        cases hc : state.ops.filter (fun o => o.production_order_id == po.id) with
        | nil => exact absurd hc hemp
        | cons a l => rfl
      simp only [generateOperationsManual, hie, Bool.not_true, Bool.not_false,
        Bool.and_true, Bool.and_false, Bool.false_eq_true, Bool.true_eq_false,
        reduceIte, hnone]
      rfl
  · intro hsome
    by_cases hemp : state.ops.filter (fun o => o.production_order_id == po.id) = []
    · have hie : (state.ops.filter
          (fun o => o.production_order_id == po.id)).isEmpty = true := by
        rw [hemp]; rfl
      simp only [generateOperationsManual, hie, Bool.not_true, Bool.and_true,
        Bool.false_and, Bool.false_eq_true, reduceIte, hsome]
      rw [deleteForRegeneration_of_no_existing state po hemp]
    · have hie : (state.ops.filter
          (fun o => o.production_order_id == po.id)).isEmpty = false := by
        cases hc : state.ops.filter (fun o => o.production_order_id == po.id) with
        | nil => exact absurd hc hemp
        | cons a l => rfl
      simp only [generateOperationsManual, hie, Bool.not_true, Bool.not_false,
        Bool.and_true, Bool.and_false, Bool.false_eq_true, Bool.true_eq_false,
        reduceIte, hsome]
      rfl

/-- Witness for C9: regeneration without force on an order with an existing
operation fails and changes nothing; with force the old operation and its
material are replaced by the set generated from the active routing. -/
theorem generate_operations_manual_guard_witness :
    generateOperationsManual
        ⟨[⟨9, 1, none, 10, "PRINT", "", none, none, none, none, "pending", 0, 0,
            none, none⟩],
          [⟨71, 9, 7, none, some 2, "EA", some 0, some 0, "pending"⟩]⟩
        [⟨50, 2, true⟩] [⟨11, 50, 10, "PRINT", "Print", none, some 1, some 3⟩]
        [⟨31, 11, 7, 1, "unit", "EA", none, false, false⟩]
        [⟨7, "PLA", "PLA", "EA"⟩] (fun _ _ _ => none)
        (⟨1, 2, some 2, none, "released", none⟩ : ProductionOrder) false 100
      = (⟨[⟨9, 1, none, 10, "PRINT", "", none, none, none, none, "pending", 0, 0,
            none, none⟩],
          [⟨71, 9, 7, none, some 2, "EA", some 0, some 0, "pending"⟩]⟩,
         Except.error "Operations already exist. Use force=True to regenerate.")
    ∧ generateOperationsManual
        ⟨[⟨9, 1, none, 10, "PRINT", "", none, none, none, none, "pending", 0, 0,
            none, none⟩],
          [⟨71, 9, 7, none, some 2, "EA", some 0, some 0, "pending"⟩]⟩
        [⟨50, 2, true⟩] [⟨11, 50, 10, "PRINT", "Print", none, some 1, some 3⟩]
        [⟨31, 11, 7, 1, "unit", "EA", none, false, false⟩]
        [⟨7, "PLA", "PLA", "EA"⟩] (fun _ _ _ => none)
        (⟨1, 2, some 2, none, "released", none⟩ : ProductionOrder) true 100
      = (⟨[⟨100, 1, some 11, 10, "PRINT", "Print", none, none, none, none,
            "pending", 1, 6, none, none⟩],
          [⟨0, 100, 7, some 31, some 2, "EA", some 0, some 0, "pending"⟩]⟩,
         Except.ok [⟨100, 1, some 11, 10, "PRINT", "Print", none, none, none,
            none, "pending", 1, 6, none, none⟩]) := by
  constructor
  · exact (generate_operations_manual_guard _ _ _ _ _ _ _ 100 ⟨50, 2, true⟩).1
      (by decide)
  · rw [(generate_operations_manual_guard _ _ _ _ _ _ _ 100 ⟨50, 2, true⟩).2.2
      (by decide)]
    rfl

/-- Membership in the pending purchase order list: exactly the purchase orders
in an active status joined to a line for the product with positive remaining
quantity. -/
theorem mem_getPendingPurchaseOrders (pos : List PurchaseOrder)
    (lines : List PurchaseOrderLine) (productId : Int) (p : PurchaseOrder)
    (rem : ℚ) :
    (p, rem) ∈ getPendingPurchaseOrders pos lines productId ↔
      p ∈ pos ∧ p.status ∈ (["draft", "ordered", "shipped"] : List String)
        ∧ 0 < rem
        ∧ ∃ l ∈ lines, l.purchase_order_id = p.id ∧ l.product_id = productId ∧
            rem = l.quantity_ordered.getD 0 - l.quantity_received.getD 0 := by
  unfold getPendingPurchaseOrders
  simp only [List.mem_filterMap, List.mem_flatMap, List.mem_map, List.mem_filter]
  constructor
  · rintro ⟨r, ⟨po1, hpo1, pol, ⟨hpolmem, hcond⟩, heq⟩, hg⟩
    subst heq
    simp only [Bool.and_eq_true, beq_iff_eq] at hcond
    rcases hcond with ⟨⟨hlid, hlpid⟩, hstat⟩
    by_cases hrem : pol.quantity_ordered.getD 0 - pol.quantity_received.getD 0 > 0
    · rw [if_pos hrem] at hg
      rw [Option.some_inj, Prod.mk.injEq] at hg
      rcases hg with ⟨hpo, hrm⟩
      subst hpo
      refine ⟨hpo1, ?_, ?_, pol, hpolmem, hlid, hlpid, hrm.symm⟩
      · simpa [List.contains_iff_exists_mem_beq] using hstat
      · exact lt_of_lt_of_eq hrem hrm
    · rw [if_neg hrem] at hg
      exact absurd hg (Option.noConfusion)
  · rintro ⟨hp, hst, hrem, l, hl, hlid, hlpid, hremeq⟩
    refine ⟨(p, l), ⟨p, hp, l, ⟨hl, ?_⟩, rfl⟩, ?_⟩
    · simp only [Bool.and_eq_true, beq_iff_eq]
      refine ⟨⟨hlid, hlpid⟩, ?_⟩
      simpa [List.contains_iff_exists_mem_beq] using hst
    · rw [← hremeq, if_pos hrem, Option.some_inj]
  
/-- A routing-tier issue's incoming supply is the pending-purchase-order hint
for its own product. -/
theorem routingIssueFor_incoming (db : BlockingDb) (mat : PoOperationMaterial)
    (issue : MaterialIssue) (h : routingIssueFor db mat = some issue) :
    issue.incoming_supply = incomingSupplyFor db issue.product_id := by
  rcases Option.map_eq_some'.mp h with ⟨c, hc, heq⟩
  subst heq
  rfl

/-- A BOM-tier issue's incoming supply is the pending-purchase-order hint for
its own product. -/
theorem bomIssueFor_incoming (db : BlockingDb) (q : ℚ) (line : BOMLine)
    (issue : MaterialIssue) (h : bomIssueFor db q line = some issue) :
    issue.incoming_supply = incomingSupplyFor db issue.product_id := by
  rcases Option.map_eq_some'.mp h with ⟨c, hc, heq⟩
  subst heq
  rfl

/-- The incoming-supply hint, when present, is the head of the pending
purchase order list, so it is one of its members. -/
theorem incomingSupplyFor_mem (db : BlockingDb) (productId : Int)
    (inc : IncomingSupply) (h : incomingSupplyFor db productId = some inc) :
    ∃ pp q, (pp, q) ∈ getPendingPurchaseOrders db.purchaseOrders
        db.purchaseOrderLines productId
      ∧ inc.purchase_order_id = pp.id ∧ inc.quantity = q := by
  rcases Option.map_eq_some'.mp h with ⟨r, hr, heq⟩
  subst heq
  exact ⟨r.1, r.2, List.mem_of_mem_head? hr, rfl, rfl⟩

/-- C10: every incoming-supply hint of a blocking-check issue comes from a
purchase order in status draft, ordered or shipped whose line has strictly
positive remaining quantity (ordered - received); received, closed or
cancelled orders and exhausted lines never appear, and a still-unsent draft
order does count. -/
theorem incoming_supply_open_po (db : BlockingDb) (po : ProductionOrder)
    (op : PoOperation) (pos : List PurchaseOrder)
    (lines : List PurchaseOrderLine) (productId : Int) (p : PurchaseOrder)
    (rem : ℚ) (pol : PurchaseOrderLine) :
    ((p, rem) ∈ getPendingPurchaseOrders pos lines productId →
      (p.status = "draft" ∨ p.status = "ordered" ∨ p.status = "shipped")
        ∧ 0 < rem
        ∧ ∃ l ∈ lines, l.purchase_order_id = p.id ∧ l.product_id = productId ∧
            rem = l.quantity_ordered.getD 0 - l.quantity_received.getD 0)
    ∧ (∀ issue ∈ (checkOperationBlocking db po op).material_issues,
        ∀ inc, issue.incoming_supply = some inc →
          ∃ pp q, (pp, q) ∈ getPendingPurchaseOrders db.purchaseOrders
              db.purchaseOrderLines issue.product_id
            ∧ inc.purchase_order_id = pp.id ∧ inc.quantity = q
            ∧ (pp.status = "draft" ∨ pp.status = "ordered"
                ∨ pp.status = "shipped")
            ∧ 0 < q)
    ∧ (p ∈ pos → p.status = "draft" → pol ∈ lines →
        pol.purchase_order_id = p.id → pol.product_id = productId →
        0 < pol.quantity_ordered.getD 0 - pol.quantity_received.getD 0 →
        (p, pol.quantity_ordered.getD 0 - pol.quantity_received.getD 0)
          ∈ getPendingPurchaseOrders pos lines productId) := by
  refine ⟨?_, ?_, ?_⟩
  · intro hmem
    rcases (mem_getPendingPurchaseOrders pos lines productId p rem).mp hmem with
      ⟨-, hst, hrem, hex⟩
    refine ⟨?_, hrem, hex⟩
    simpa using hst
  · intro issue hmem inc hinc
    have hprov : issue.incoming_supply = incomingSupplyFor db issue.product_id := by
      simp only [checkOperationBlocking] at hmem
      split at hmem
      · split at hmem
        · simp at hmem
        · split at hmem
          · simp at hmem
          · split at hmem
            · simp at hmem
            · rcases List.mem_filterMap.mp hmem with ⟨l, -, hl⟩
              exact bomIssueFor_incoming _ _ _ _ hl
      · rcases List.mem_filterMap.mp hmem with ⟨m, -, hm⟩
        exact routingIssueFor_incoming _ _ _ hm
    rw [hprov] at hinc
    rcases incomingSupplyFor_mem db issue.product_id inc hinc with
      ⟨pp, q, hq, hid, hqty⟩
    rcases (mem_getPendingPurchaseOrders _ _ _ pp q).mp hq with ⟨-, hst, hpos, -⟩
    exact ⟨pp, q, hq, hid, hqty, by simpa using hst, hpos⟩
  · intro hp hdraft hl hlid hlpid hrem
    exact (mem_getPendingPurchaseOrders pos lines productId p _).mpr
      ⟨hp, by simp [hdraft], hrem, pol, hl, hlid, hlpid, rfl⟩

/-- Witness for C10: a draft purchase order with remaining quantity counts as
incoming supply. -/
theorem incoming_supply_open_po_witness :
    ((⟨3, "PO1", "draft", some 99⟩ : PurchaseOrder), (3:ℚ)) ∈
      getPendingPurchaseOrders [⟨3, "PO1", "draft", some 99⟩]
        [⟨3, 7, some 4, some 1⟩] 7 := by
  exact (incoming_supply_open_po ⟨[], [], [], [], [], []⟩
      (⟨1, 1, none, none, "draft", none⟩ : ProductionOrder)
      (⟨1, 1, none, 0, "", "", none, none, none, none, "pending", 0, 0, none,
        none⟩ : PoOperation)
      [⟨3, "PO1", "draft", some 99⟩] [⟨3, 7, some 4, some 1⟩] 7
      ⟨3, "PO1", "draft", some 99⟩ 3 ⟨3, 7, some 4, some 1⟩).2.2
    (by decide) rfl (by decide) rfl rfl (by decide)

end FilaOps

